import Mathlib

/-!
Verification development for the omcp SQL safety pipeline: a shallow
embedding of the SQL validator (src/omcp/sql_validator.py) and of the
PostgreSQL-to-Databricks dialect transpiler (src/omcp/transpiler.py),
together with theorems about the behaviour of the embedded code.

The SQL parser, serializer and generic tree-transform driver come from the
third-party sqlglot library; they enter the embedding either as explicit
function parameters (parse, print, sql) or, for the transform driver whose
interaction with the transformer callback matters, as a faithful model of
its documented top-down visit-and-prune behaviour.  Everything else is a
direct translation of the repository source.
-/

/-- Enumerated SQL types, modelling the members of sqlglot
DataType.Type that the repository code compares against. -/
inductive SqlType where
  | TIMESTAMP
  | BIGINT
  | OTHERTYPE (s : String)
deriving DecidableEq

set_option maxHeartbeats 3200000 in
mutual

/-- Shallow embedding of the sqlglot expression nodes consumed by the
repository.  Constructor and field names mirror the sqlglot classes and
their argument keys (this, expression, expressions, ...).  A sqlglot
DataType whose this-argument is a member of the type enumeration is
DataTypeT; one whose this-argument is itself an expression (the interval
cast shape) is DataTypeE. -/
inductive Expr where
  | Select (expressions : ExprL) (fromArg : ExprO) (whereArg : ExprO)
  | Insert (this : Expr) (expression : Expr)
  | Update (this : Expr) (expressions : ExprL)
  | Schema (this : Expr) (expressions : ExprL)
  | Values (expressions : ExprL)
  | Tuple (expressions : ExprL)
  | From (this : Expr)
  | Table (this : Expr)
  | Column (this : Expr) (table : ExprO) (db : ExprO)
  | Identifier (this : String)
  | Var (this : String)
  | Literal (is_string : Bool) (this : String)
  | Placeholder
  | Parameter (this : Expr)
  | Add (this : Expr) (expression : Expr)
  | Sub (this : Expr) (expression : Expr)
  | Div (this : Expr) (expression : Expr)
  | Mul (this : Expr) (expression : Expr)
  | LTE (this : Expr) (expression : Expr)
  | LT (this : Expr) (expression : Expr)
  | GTE (this : Expr) (expression : Expr)
  | GT (this : Expr) (expression : Expr)
  | EQ (this : Expr) (expression : Expr)
  | NEQ (this : Expr) (expression : Expr)
  | ArrayOverlaps (this : Expr) (expression : Expr)
  | And (this : Expr) (expression : Expr)
  | Is (this : Expr) (expression : Expr)
  | Not (this : Expr)
  | Paren (this : Expr)
  | Abs (this : Expr)
  | Dot (this : Expr) (expression : Expr)
  | Cast (this : Expr) (toArg : Expr)
  | DataTypeT (t : SqlType)
  | DataTypeE (this : Expr)
  | Extract (this : Expr) (expression : Expr)
  | Anonymous (this : String) (expressions : ExprL)
  | Struct (expressions : ExprL)
  | PropertyEQ (this : Expr) (expression : Expr)
  | Interval (this : ExprO) (unit : ExprO)
  | WindowSpec (kind : Option String) (frameStart : ExprO) (frameEnd : ExprO)
deriving DecidableEq

/-- A list of child expressions (a Python list argument of a node). -/
inductive ExprL where
  | nil
  | cons (hd : Expr) (tl : ExprL)
deriving DecidableEq

/-- An optional child expression (a Python argument that may be None). -/
inductive ExprO where
  | noneE
  | someE (e : Expr)
deriving DecidableEq

end

/-- Build an embedded child list from a Lean list. -/
def ExprL.ofList : List Expr → ExprL
  | [] => .nil
  | x :: xs => .cons x (ExprL.ofList xs)

/-!
Models of the Python str methods used by the repository (lower, upper,
endswith, int conversion, whitespace split).  They are written by
structural recursion over the character list of the string so that every
concrete computation in this file reduces inside the kernel; on the ASCII
SQL identifiers this code processes they agree with the Python methods.
-/

/-- Python lower() on one character (ASCII). -/
def pyCharLower (c : Char) : Char :=
  if c.isUpper then Char.ofNat (c.toNat + 32) else c

/-- Python upper() on one character (ASCII). -/
def pyCharUpper (c : Char) : Char :=
  if c.isLower then Char.ofNat (c.toNat - 32) else c

/-- Python str.lower() (ASCII). -/
def pyLower (s : String) : String := .mk (s.data.map pyCharLower)

/-- Python str.upper() (ASCII). -/
def pyUpper (s : String) : String := .mk (s.data.map pyCharUpper)

/-- Python str.endswith(t): the last characters of s are exactly t. -/
def pyEndsWith (s t : String) : Bool :=
  s.data.drop (s.data.length - t.data.length) == t.data

/-- Value of a decimal digit character. -/
def digVal? (c : Char) : Option Nat :=
  if '0' ≤ c && c ≤ '9' then some (c.toNat - 48) else none

/-- Accumulate a digit run; any non-digit character refuses. -/
def digitsToNat : List Char → Nat → Option Nat
  | [], acc => some acc
  | c :: cs, acc =>
    match digVal? c with
    | some d => digitsToNat cs (acc * 10 + d)
    | none => none

/-- Python int(str): an optional sign followed by at least one decimal
digit; anything else (including a float literal such as 1.5) raises a
ValueError, modelled as none. -/
def pyInt (s : String) : Option Int :=
  match s.data with
  | [] => none
  | '-' :: cs =>
    match cs with
    | [] => none
    | _ => (digitsToNat cs 0).map (fun n => -(n : Int))
  | '+' :: cs =>
    match cs with
    | [] => none
    | _ => (digitsToNat cs 0).map (fun n => (n : Int))
  | cs => (digitsToNat cs 0).map (fun n => (n : Int))

/-- Helper of pySplitWs: consume characters, flushing the word collected
so far (in reverse) at each whitespace run. -/
def splitWsAux : List Char → List Char → List String
  | [], cur => if cur.isEmpty then [] else [String.mk cur.reverse]
  | c :: cs, cur =>
    if c.isWhitespace then
      if cur.isEmpty then splitWsAux cs [] else String.mk cur.reverse :: splitWsAux cs []
    else splitWsAux cs (c :: cur)

/-- Python str.split() with no argument: split on whitespace runs and
drop empty pieces. -/
def pySplitWs (s : String) : List String := splitWsAux s.data []

mutual

/-- All nodes of a tree in depth-first order, the node itself included.
Models the full traversal behind sqlglot walk and find_all. -/
def allNodes : Expr → List Expr
  | .Select es fr wh => .Select es fr wh :: (allNodesL es ++ allNodesO fr ++ allNodesO wh)
  | .Insert t e => .Insert t e :: (allNodes t ++ allNodes e)
  | .Update t es => .Update t es :: (allNodes t ++ allNodesL es)
  | .Schema t es => .Schema t es :: (allNodes t ++ allNodesL es)
  | .Values es => .Values es :: allNodesL es
  | .Tuple es => .Tuple es :: allNodesL es
  | .From t => .From t :: allNodes t
  | .Table t => .Table t :: allNodes t
  | .Column t tb db => .Column t tb db :: (allNodes t ++ allNodesO tb ++ allNodesO db)
  | .Identifier s => [.Identifier s]
  | .Var s => [.Var s]
  | .Literal b s => [.Literal b s]
  | .Placeholder => [.Placeholder]
  | .Parameter t => .Parameter t :: allNodes t
  | .Add a b => .Add a b :: (allNodes a ++ allNodes b)
  | .Sub a b => .Sub a b :: (allNodes a ++ allNodes b)
  | .Div a b => .Div a b :: (allNodes a ++ allNodes b)
  | .Mul a b => .Mul a b :: (allNodes a ++ allNodes b)
  | .LTE a b => .LTE a b :: (allNodes a ++ allNodes b)
  | .LT a b => .LT a b :: (allNodes a ++ allNodes b)
  | .GTE a b => .GTE a b :: (allNodes a ++ allNodes b)
  | .GT a b => .GT a b :: (allNodes a ++ allNodes b)
  | .EQ a b => .EQ a b :: (allNodes a ++ allNodes b)
  | .NEQ a b => .NEQ a b :: (allNodes a ++ allNodes b)
  | .ArrayOverlaps a b => .ArrayOverlaps a b :: (allNodes a ++ allNodes b)
  | .And a b => .And a b :: (allNodes a ++ allNodes b)
  | .Is a b => .Is a b :: (allNodes a ++ allNodes b)
  | .Not t => .Not t :: allNodes t
  | .Paren t => .Paren t :: allNodes t
  | .Abs t => .Abs t :: allNodes t
  | .Dot a b => .Dot a b :: (allNodes a ++ allNodes b)
  | .Cast t ty => .Cast t ty :: (allNodes t ++ allNodes ty)
  | .DataTypeT t => [.DataTypeT t]
  | .DataTypeE t => .DataTypeE t :: allNodes t
  | .Extract a b => .Extract a b :: (allNodes a ++ allNodes b)
  | .Anonymous s es => .Anonymous s es :: allNodesL es
  | .Struct es => .Struct es :: allNodesL es
  | .PropertyEQ a b => .PropertyEQ a b :: (allNodes a ++ allNodes b)
  | .Interval t u => .Interval t u :: (allNodesO t ++ allNodesO u)
  | .WindowSpec k fs fe => .WindowSpec k fs fe :: (allNodesO fs ++ allNodesO fe)

def allNodesL : ExprL → List Expr
  | .nil => []
  | .cons x xs => allNodes x ++ allNodesL xs

def allNodesO : ExprO → List Expr
  | .noneE => []
  | .someE x => allNodes x

end

/-- Whether a node is a sqlglot Table node (isinstance check). -/
def isTableNode : Expr → Bool
  | .Table _ => true
  | _ => false

/-- Whether a node is a sqlglot Column node (isinstance check). -/
def isColumnNode : Expr → Bool
  | .Column _ _ _ => true
  | _ => false

/-- Whether the root node is a sqlglot Select (isinstance check). -/
def isSelect : Expr → Bool
  | .Select _ _ _ => true
  | _ => false

/-- The text of an identifier-like argument, as sqlglot text extraction
returns it (empty for shapes with no usable text). -/
def textOfThis : Expr → String
  | .Identifier s => s
  | .Var s => s
  | .Literal _ s => s
  | _ => ""

/-- The name property of a Table or Column node in sqlglot: the text of
its this-argument. -/
def Expr.name : Expr → String
  | .Table t => textOfThis t
  | .Column t _ _ => textOfThis t
  | _ => ""

/-- All Table nodes of a tree: models parsed_sql.find_all(exp.Table). -/
def findTables (e : Expr) : List Expr := (allNodes e).filter isTableNode

/-- All Column nodes of a tree: models parsed_sql.find_all(exp.Column). -/
def findColumns (e : Expr) : List Expr := (allNodes e).filter isColumnNode

/-! ## Validator (src/omcp/sql_validator.py) -/

/-- The error taxonomy of omcp/exceptions.py, restricted to the classes
the validator produces; each carries its message.  ParseError stands for
the sqlglot parse error object appended on a parse failure. -/
inductive QueryError where
  | NotSelectQueryError (msg : String)
  | TableNotFoundError (msg : String)
  | ColumnNotFoundError (msg : String)
  | UnauthorizedTableError (msg : String)
  | UnauthorizedColumnError (msg : String)
  | ParseError (msg : String)
deriving DecidableEq

def QueryError.isUnauthorizedTableError : QueryError → Bool
  | .UnauthorizedTableError _ => true
  | _ => false

def QueryError.isUnauthorizedColumnError : QueryError → Bool
  | .UnauthorizedColumnError _ => true
  | _ => false

/-- The OMOP_TABLES constant of sql_validator.py, verbatim. -/
def OMOP_TABLES : List String :=
  [ "care_site", "cdm_source", "concept", "concept_ancestor", "concept_class",
    "concept_relationship", "concept_synonym", "condition_era",
    "condition_occurrence", "cost", "death", "device_exposure", "domain",
    "dose_era", "drug_era", "drug_exposure", "drug_strength", "episode",
    "episode_event", "fact_relationship", "location", "measurement",
    "metadata", "note", "note_nlp", "observation", "observation_period",
    "payer_plan_period", "person", "procedure_occurrence", "provider",
    "relationship", "specimen", "visit_detail", "visit_occurrence",
    "vocabulary" ]

/-- The SQLValidator class state after __init__: the exclusion lists are
already lower-cased, exactly as the constructor stores them. -/
structure SQLValidator where
  allow_source_value_columns : Bool
  exclude_tables : List String
  exclude_columns : List String

/-- The SQLValidator constructor: lower-cases the exclusion lists and
defaults absent lists to empty. -/
def SQLValidator.make (allow_source_value_columns : Bool)
    (exclude_tables exclude_columns : Option (List String)) : SQLValidator :=
  { allow_source_value_columns := allow_source_value_columns
    exclude_tables := (exclude_tables.getD []).map pyLower
    exclude_columns := (exclude_columns.getD []).map pyLower }

/-- _check_is_select_query: the error (not None) exactly when the parsed
root is not a Select. -/
def SQLValidator._check_is_select_query (parsed_sql : Expr) : Option QueryError :=
  if isSelect parsed_sql then none
  else some (.NotSelectQueryError "Only SELECT statements are allowed for security reasons.")

/-- _check_is_omop_table: collects the lower-cased names of tables outside
the OMOP vocabulary and aggregates them in one error. -/
def SQLValidator._check_is_omop_table (tables : List Expr) : Option QueryError :=
  let not_omop_tables := tables.filterMap fun table =>
    let n := pyLower (Expr.name table)
    if OMOP_TABLES.contains n then none else some n
  if not_omop_tables.isEmpty then none
  else some (.TableNotFoundError
    ("Tables not found in OMOP CDM: " ++ String.intercalate ", " not_omop_tables))

/-- _check_unauthorized_tables: collects the lower-cased names of tables on
the exclusion list and aggregates them in one error. -/
def SQLValidator._check_unauthorized_tables (v : SQLValidator)
    (tables : List Expr) : Option QueryError :=
  let unauthorized_tables := tables.filterMap fun table =>
    let n := pyLower (Expr.name table)
    if v.exclude_tables.contains n then some n else none
  if unauthorized_tables.isEmpty then none
  else some (.UnauthorizedTableError
    ("Unauthorized tables in query: " ++ String.intercalate ", " unauthorized_tables))

/-- _check_unauthorized_columns: collects the lower-cased names of columns
on the exclusion list and aggregates them in one error. -/
def SQLValidator._check_unauthorized_columns (v : SQLValidator)
    (columns : List Expr) : Option QueryError :=
  let unauthorized_columns := columns.filterMap fun column =>
    let n := pyLower (Expr.name column)
    if v.exclude_columns.contains n then some n else none
  if unauthorized_columns.isEmpty then none
  else some (.UnauthorizedColumnError
    ("Unauthorized columns in query: " ++ String.intercalate ", " unauthorized_columns))

/-- _check_source_value_columns: when source value columns are not
allowed, aggregates every column whose lower-cased name ends in
_source_value or _source_concept_id into one error. -/
def SQLValidator._check_source_value_columns (v : SQLValidator)
    (columns : List Expr) : Option QueryError :=
  if v.allow_source_value_columns then none
  else
    let source_value_columns := columns.filterMap fun column =>
      let n := pyLower (Expr.name column)
      if pyEndsWith n "_source_value" || pyEndsWith n "_source_concept_id" then some n else none
    if source_value_columns.isEmpty then none
    else some (.UnauthorizedColumnError
      ("Source value columns are not allowed: " ++ String.intercalate ", " source_value_columns
        ++ ". Use the corresponding concept_id columns with a join on the concept table instead. "
        ++ "Inform the user that this is a security measure to prevent data leakage."))

/-- validate_sql, on the outcome of the external sqlglot parse call.  A
parse failure is caught and appended as the only error.  A non-Select root
makes the method raise its own NotSelectQueryError, which its catch-all
except clause appends to the (still empty) error list, so nothing after
the statement-kind check runs in that case.  Otherwise every check result
is appended and the final filter drops the None results. -/
def SQLValidator.validate_sql (v : SQLValidator)
    (parsed : Except String Expr) : List QueryError :=
  match parsed with
  | .error e => [.ParseError e]
  | .ok parsed_sql =>
    match SQLValidator._check_is_select_query parsed_sql with
    | some err => [err]
    | none =>
      let tables := findTables parsed_sql
      let columns := findColumns parsed_sql
      let errors : List (Option QueryError) :=
        (if tables.isEmpty then [some (.TableNotFoundError "No tables found in the query.")] else [])
        ++ (if columns.isEmpty then [some (.ColumnNotFoundError "No columns found in the query.")] else [])
        ++ [ SQLValidator._check_is_omop_table tables,
             v._check_unauthorized_tables tables,
             v._check_unauthorized_columns columns,
             v._check_source_value_columns columns ]
      errors.filterMap id

/-! ## Transpiler (src/omcp/transpiler.py) -/

/-- _create_datediff: a DATEDIFF(left, right) anonymous call. -/
def _create_datediff (left right : Expr) : Expr :=
  .Anonymous "DATEDIFF" (.cons left (.cons right .nil))

/-- _unwrap_timestamp_cast: remove a CAST(... AS TIMESTAMP) wrapper. -/
def _unwrap_timestamp_cast : Expr → Expr
  | .Cast inner (.DataTypeT .TIMESTAMP) => inner
  | e => e

/-- The Python str() rendering of the shapes found in the unit position of
an Extract node (a Var after parsing; a bare column renders as its name).
Other shapes render as longer SQL text that never equals the single
keywords the transpiler compares against, modelled by an empty sentinel. -/
def pyStr : Expr → String
  | .Var s => s
  | .Identifier s => s
  | .Column (.Identifier s) .noneE .noneE => s
  | _ => ""

/-- _is_year_extract: EXTRACT(YEAR FROM ...), which is an integer. -/
def _is_year_extract : Expr → Bool
  | .Extract u _ => pyUpper (pyStr u) == "YEAR"
  | _ => false

/-- _extract_date_operands_from_sub: the two operands of a subtraction
with TIMESTAMP casts removed, or (None, None) when the node is not a
subtraction or an operand is a year extraction. -/
def _extract_date_operands_from_sub : Expr → Option Expr × Option Expr
  | .Sub l r =>
    let left := _unwrap_timestamp_cast l
    let right := _unwrap_timestamp_cast r
    if _is_year_extract left || _is_year_extract right then (none, none)
    else (some left, some right)
  | _ => (none, none)

/-- _is_epoch_days_pattern: CAST(EXTRACT(epoch FROM ...) / 86400 AS
BIGINT), returning the extracted expression; the Python int() call on the
divisor text is modelled by String.toInt? so a non-integer divisor falls
back to no match exactly as the try/except does. -/
def _is_epoch_days_pattern (node : Expr) : Option Expr :=
  match node with
  | .Cast inner (.DataTypeT .BIGINT) =>
    match inner with
    | .Div lhs divisor =>
      match divisor with
      | .Literal false dtext =>
        match pyInt dtext with
        | some dval =>
          if dval = 86400 then
            match lhs with
            | .Extract u sub => if pyUpper (pyStr u) == "EPOCH" then some sub else none
            | _ => none
          else none
        | none => none
      | _ => none
    | _ => none
  | _ => none

/-- _is_abs_with_subtraction: ABS(a - b), with optional extra parens,
returning the inner subtraction. -/
def _is_abs_with_subtraction : Expr → Option Expr
  | .Abs inner =>
    match inner with
    | .Sub a b => some (.Sub a b)
    | .Paren (.Sub a b) => some (.Sub a b)
    | _ => none
  | _ => none

/-- _is_numeric_value: literal number, placeholder or parameter, or a cast
of one of those (the cast target type is not inspected). -/
def _is_numeric_value : Expr → Bool
  | .Literal is_string _ => !is_string
  | .Placeholder => true
  | .Parameter _ => true
  | .Cast inner _ =>
    match inner with
    | .Literal is_string _ => !is_string
    | .Placeholder => true
    | .Parameter _ => true
    | _ => false
  | _ => false

/-- _is_daterange_call: an anonymous call named DATERANGE with at least
two arguments, returning (start, end, optional bounds). -/
def _is_daterange_call : Expr → Option (Expr × Expr × Option Expr)
  | .Anonymous nm args =>
    if pyUpper nm == "DATERANGE" then
      match args with
      | .cons s (.cons e rest) =>
        some (s, e, match rest with | .cons b _ => some b | .nil => none)
      | _ => none
    else none
  | _ => none

/-- _create_struct_for_range: STRUCT(start AS start, end AS end). -/
def _create_struct_for_range (start_date end_date : Expr) : Expr :=
  .Struct (.cons (.PropertyEQ (.Identifier "start") start_date)
    (.cons (.PropertyEQ (.Identifier "end") end_date) .nil))

/-- _is_range_overlap_operator: the PostgreSQL range overlap operator,
parsed by sqlglot as ArrayOverlaps. -/
def _is_range_overlap_operator : Expr → Option (Expr × Expr)
  | .ArrayOverlaps a b => some (a, b)
  | _ => none

/-- The looks_like_range closure of _is_range_intersection_operator: a
structural heuristic deciding whether an operand is a range expression.
The Python column branch contains a nested three-level-identifier check
that can never return False (its condition repeats an already excluded
case), so the branch reduces to the start/end name test. -/
def looks_like_range (expr0 : Expr) : Bool :=
  let expr := match expr0 with
    | .Paren t => t
    | e => e
  match expr with
  | .Mul _ _ => true
  | .Struct _ => true
  | .Dot _ field_name =>
    match field_name with
    | .Identifier s => !(s == "start" || s == "end")
    | _ => true
  | .Column cthis _ _ =>
    match cthis with
    | .Identifier s => !(s == "start" || s == "end")
    | _ => true
  | _ => false

/-- _is_range_intersection_operator: a Mul node whose two operands both
look like range expressions. -/
def _is_range_intersection_operator : Expr → Option (Expr × Expr)
  | .Mul l r => if looks_like_range l && looks_like_range r then some (l, r) else none
  | _ => none

/-- _unwrap_paren. -/
def _unwrap_paren : Expr → Expr
  | .Paren t => t
  | e => e

/-- _create_range_overlap_condition:
left.start <= right.end AND right.start <= left.end. -/
def _create_range_overlap_condition (left_range0 right_range0 : Expr) : Expr :=
  let left_range := _unwrap_paren left_range0
  let right_range := _unwrap_paren right_range0
  let left_start := Expr.Dot left_range (.Identifier "start")
  let left_end := Expr.Dot left_range (.Identifier "end")
  let right_start := Expr.Dot right_range (.Identifier "start")
  let right_end := Expr.Dot right_range (.Identifier "end")
  .And (.LTE left_start right_end) (.LTE right_start left_end)

/-- _create_range_intersection: STRUCT(GREATEST(starts) AS start,
LEAST(ends) AS end). -/
def _create_range_intersection (left_range0 right_range0 : Expr) : Expr :=
  let left_range := _unwrap_paren left_range0
  let right_range := _unwrap_paren right_range0
  let left_start := Expr.Dot left_range (.Identifier "start")
  let left_end := Expr.Dot left_range (.Identifier "end")
  let right_start := Expr.Dot right_range (.Identifier "start")
  let right_end := Expr.Dot right_range (.Identifier "end")
  let greatest_start := Expr.Anonymous "GREATEST" (.cons left_start (.cons right_start .nil))
  let least_end := Expr.Anonymous "LEAST" (.cons left_end (.cons right_end .nil))
  .Struct (.cons (.PropertyEQ (.Identifier "start") greatest_start)
    (.cons (.PropertyEQ (.Identifier "end") least_end) .nil))

/-- _transform_window_spec: inside a RANGE window frame, rewrite the
PostgreSQL interval-cast end bound CAST(literal AS INTERVAL ... FOLLOWING)
into a native INTERVAL n UNIT bound when the literal text has exactly two
whitespace-separated parts.  Any other node is returned unchanged.  The
Python version mutates the node in place and returns the same object. -/
def _transform_window_spec (node : Expr) : Expr :=
  match node with
  | .WindowSpec kind fs fe =>
    if kind = some "RANGE" then
      match fe with
      | .someE (.Cast castThis (.DataTypeE (.Interval _ (.someE (.Var unitVar))))) =>
        if unitVar = "FOLLOWING" then
          match castThis with
          | .Literal _ value_str =>
            match pySplitWs value_str with
            | [number, unit] =>
              .WindowSpec kind fs
                (.someE (.Interval (.someE (.Literal false number)) (.someE (.Var (pyUpper unit)))))
            | _ => node
          | _ => node
        else node
      | _ => node
    else node
  | _ => node

/-- The comparison kinds the transformer looks for (exp.LTE, exp.LT,
exp.GTE, exp.GT, exp.EQ, exp.NEQ). -/
inductive CmpK where
  | lteK | ltK | gteK | gtK | eqK | neqK
deriving DecidableEq

/-- Destructure a comparison node into its kind and operands. -/
def asCmp : Expr → Option (CmpK × Expr × Expr)
  | .LTE a b => some (.lteK, a, b)
  | .LT a b => some (.ltK, a, b)
  | .GTE a b => some (.gteK, a, b)
  | .GT a b => some (.gtK, a, b)
  | .EQ a b => some (.eqK, a, b)
  | .NEQ a b => some (.neqK, a, b)
  | _ => none

/-- Rebuild a comparison node from its kind and operands. -/
def mkCmp : CmpK → Expr → Expr → Expr
  | .lteK, a, b => .LTE a b
  | .ltK, a, b => .LT a b
  | .gteK, a, b => .GTE a b
  | .gtK, a, b => .GT a b
  | .eqK, a, b => .EQ a b
  | .neqK, a, b => .NEQ a b

/-- The date + numeric-literal branch of the transformer: any Add whose
right operand is a numeric literal becomes DATE_ADD(left, right); the
left operand is not inspected. -/
def dateAddRewrite : Expr → Option Expr
  | .Add left right =>
    match right with
    | .Literal false v => some (.Anonymous "DATE_ADD" (.cons left (.cons (.Literal false v) .nil)))
    | _ => none
  | _ => none

/-- The NOT (range IS EMPTY) branch: rewrite to range.start <= range.end. -/
def notEmptyRewrite : Expr → Option Expr
  | .Not inner =>
    match inner with
    | .Is isThis is_empty_check =>
      match is_empty_check with
      | .Column identifier _ _ =>
        match identifier with
        | .Identifier idname =>
          if pyUpper idname = "EMPTY" then
            let range_expr := _unwrap_paren isThis
            some (.LTE (.Dot range_expr (.Identifier "start")) (.Dot range_expr (.Identifier "end")))
          else none
        | _ => none
      | _ => none
    | _ => none
  | _ => none

/-- The range IS EMPTY branch: rewrite to range.start > range.end. -/
def isEmptyRewrite : Expr → Option Expr
  | .Is isThis is_empty_check =>
    match is_empty_check with
    | .Column identifier _ _ =>
      match identifier with
      | .Identifier idname =>
        if pyUpper idname = "EMPTY" then
          let range_expr := _unwrap_paren isThis
          some (.GT (.Dot range_expr (.Identifier "start")) (.Dot range_expr (.Identifier "end")))
        else none
      | _ => none
    | _ => none
  | _ => none

/-- The comparison branch of the transformer: the replacement for the left
operand of a comparison whose right operand is numeric, trying the ABS,
epoch-days, parenthesized-subtraction and direct-subtraction patterns in
the order of the source; each pattern that matches but yields no date
operands falls through to the next, as the Python if-chain does. -/
def comparisonNewThis (left : Expr) : Option Expr :=
  let absCase :=
    match _is_abs_with_subtraction left with
    | some sub_expr =>
      match _extract_date_operands_from_sub sub_expr with
      | (some a, some b) => some (.Abs (_create_datediff a b))
      | _ => none
    | none => none
  match absCase with
  | some r => some r
  | none =>
  let epochCase :=
    match _is_epoch_days_pattern left with
    | some sub_expr =>
      match _extract_date_operands_from_sub sub_expr with
      | (some a, some b) => some (_create_datediff a b)
      | _ => none
    | none => none
  match epochCase with
  | some r => some r
  | none =>
  let parenCase :=
    match left with
    | .Paren (.Sub a0 b0) =>
      match _extract_date_operands_from_sub (.Sub a0 b0) with
      | (some a, some b) => some (_create_datediff a b)
      | _ => none
    | _ => none
  match parenCase with
  | some r => some r
  | none =>
    match left with
    | .Sub a0 b0 =>
      match _extract_date_operands_from_sub (.Sub a0 b0) with
      | (some a, some b) => some (_create_datediff a b)
      | _ => none
    | _ => none

/-- The transformer closure of _transform_date_operations, applied to one
node.  The Bool records whether the returned node is a new object (the
constructed returns) or the same object as the input, possibly mutated in
place (the node.set branches and the untouched fall-through); the sqlglot
transform driver recurses into children exactly in the latter case. -/
def transformer (node0 : Expr) : Expr × Bool :=
  let node := _transform_window_spec node0
  match dateAddRewrite node with
  | some date_add => (date_add, true)
  | none =>
  match _is_daterange_call node with
  | some (start_date, end_date, _bounds) => (_create_struct_for_range start_date end_date, true)
  | none =>
  match _is_range_overlap_operator node with
  | some (left_range, right_range) => (_create_range_overlap_condition left_range right_range, true)
  | none =>
  match _is_range_intersection_operator node with
  | some (left_range, right_range) => (_create_range_intersection left_range right_range, true)
  | none =>
  match notEmptyRewrite node with
  | some r => (r, true)
  | none =>
  match isEmptyRewrite node with
  | some r => (r, true)
  | none =>
  match asCmp node with
  | some (k, left, right) =>
    if _is_numeric_value right then
      match comparisonNewThis left with
      | some newThis => (mkCmp k newThis right, false)
      | none => (node, false)
    else (node, false)
  | none => (node, false)

/-- One-level map over the immediate child expressions of a node, as the
sqlglot transform driver applies its recursion to every expression
argument of the current node. -/
def mapChildren (f : Expr → Expr) : Expr → Expr
  | .Select es fr wh => .Select (mapL f es) (mapO f fr) (mapO f wh)
  | .Insert t e => .Insert (f t) (f e)
  | .Update t es => .Update (f t) (mapL f es)
  | .Schema t es => .Schema (f t) (mapL f es)
  | .Values es => .Values (mapL f es)
  | .Tuple es => .Tuple (mapL f es)
  | .From t => .From (f t)
  | .Table t => .Table (f t)
  | .Column t tb db => .Column (f t) (mapO f tb) (mapO f db)
  | .Identifier s => .Identifier s
  | .Var s => .Var s
  | .Literal b s => .Literal b s
  | .Placeholder => .Placeholder
  | .Parameter t => .Parameter (f t)
  | .Add a b => .Add (f a) (f b)
  | .Sub a b => .Sub (f a) (f b)
  | .Div a b => .Div (f a) (f b)
  | .Mul a b => .Mul (f a) (f b)
  | .LTE a b => .LTE (f a) (f b)
  | .LT a b => .LT (f a) (f b)
  | .GTE a b => .GTE (f a) (f b)
  | .GT a b => .GT (f a) (f b)
  | .EQ a b => .EQ (f a) (f b)
  | .NEQ a b => .NEQ (f a) (f b)
  | .ArrayOverlaps a b => .ArrayOverlaps (f a) (f b)
  | .And a b => .And (f a) (f b)
  | .Is a b => .Is (f a) (f b)
  | .Not t => .Not (f t)
  | .Paren t => .Paren (f t)
  | .Abs t => .Abs (f t)
  | .Dot a b => .Dot (f a) (f b)
  | .Cast t ty => .Cast (f t) (f ty)
  | .DataTypeT t => .DataTypeT t
  | .DataTypeE t => .DataTypeE (f t)
  | .Extract a b => .Extract (f a) (f b)
  | .Anonymous s es => .Anonymous s (mapL f es)
  | .Struct es => .Struct (mapL f es)
  | .PropertyEQ a b => .PropertyEQ (f a) (f b)
  | .Interval t u => .Interval (mapO f t) (mapO f u)
  | .WindowSpec k fs fe => .WindowSpec k (mapO f fs) (mapO f fe)
where
  mapL (f : Expr → Expr) : ExprL → ExprL
    | .nil => .nil
    | .cons x xs => .cons (f x) (mapL f xs)
  mapO (f : Expr → Expr) : ExprO → ExprO
    | .noneE => .noneE
    | .someE x => .someE (f x)

/-- The sqlglot Expression.transform driver applied to the transformer
closure, modelled with explicit fuel: visit the node top-down; when the
transformer returns a new object, stop there (the driver does not descend
into a replaced subtree in the same pass); otherwise recurse into the
children of the (possibly mutated) node.  The initial fuel, the node count
of the tree, dominates its depth, and the transformer never deepens a
mutated node, so the fuel never runs out on a real visit. -/
def transformGo : Nat → Expr → Expr
  | 0, e => e
  | n + 1, e =>
    match transformer e with
    | (e2, true) => e2
    | (e2, false) => mapChildren (transformGo n) e2

/-- tree.transform(transformer): one full transform pass over a tree. -/
def sqlglot_transform (e : Expr) : Expr := transformGo (allNodes e).length e

/-- The rewrite pass loop of _transform_date_operations, parameterized by
the pass function and the external serializer: run a pass, compare the
serialized SQL before and after, stop on equality or when the fuel is
spent, and return the tree after the last pass run. -/
def transformLoop (step : Expr → Expr) (sqlOf : Expr → String) : Nat → Expr → Expr
  | 0, tree => tree
  | n + 1, tree =>
    let old_sql := sqlOf tree
    let tree2 := step tree
    let new_sql := sqlOf tree2
    if old_sql = new_sql then tree2 else transformLoop step sqlOf n tree2

/-- _transform_date_operations: apply the transform pass repeatedly until
a pass produces no textual change, at most max_iterations = 10 times.
The serializer tree.sql() is the external sqlglot generator, taken as the
parameter sqlOf. -/
def _transform_date_operations (sqlOf : Expr → String) (tree : Expr) : Expr :=
  transformLoop sqlglot_transform sqlOf 10 tree

/-- transpile_query: parse with the source dialect, apply the custom date
operation rewrite exactly for the postgres to databricks pair, and print
in the target dialect.  parse, printT and sqlOf are the external sqlglot
parser, dialect printer and default serializer; a parse failure is
wrapped in the transpile error message the except branch raises. -/
def transpile_query (parse : String → String → Except String Expr)
    (printT : String → Expr → String) (sqlOf : Expr → String)
    (sql source_dialect target_dialect : String) : Except String String :=
  match parse source_dialect sql with
  | .error e => .error ("Error transpiling query: " ++ e)
  | .ok tree =>
    let tree2 := if source_dialect = "postgres" ∧ target_dialect = "databricks"
      then _transform_date_operations sqlOf tree else tree
    .ok (printT target_dialect tree2)

/-! ## Concrete inputs for the claims

Each tree below is the sqlglot parse of the SQL text named in its comment,
transcribed node for node. -/

/-- The default validator: SQLValidator() with no arguments. -/
def default_validator : SQLValidator := SQLValidator.make false none none

/-- SQLValidator(allow_source_value_columns=True). -/
def source_value_validator : SQLValidator := SQLValidator.make true none none

/-- SQLValidator(exclude_tables=["person"], exclude_columns=["year_of_birth"]). -/
def exclusion_validator : SQLValidator :=
  SQLValidator.make false (some ["person"]) (some ["year_of_birth"])

/-- Parse of INSERT INTO person (person_id) VALUES (1): the insert target
list holds Identifier nodes inside a Schema, as sqlglot produces. -/
def insert_person_tree : Expr :=
  .Insert (.Schema (.Table (.Identifier "person")) (.cons (.Identifier "person_id") .nil))
    (.Values (.cons (.Tuple (.cons (.Literal false "1") .nil)) .nil))

/-- Parse of UPDATE person SET year_of_birth = 1990: a parseable
non-Select statement that references the deny-listed table person and the
deny-listed column year_of_birth. -/
def update_person_tree : Expr :=
  .Update (.Table (.Identifier "person"))
    (.cons (.EQ (.Column (.Identifier "year_of_birth") .noneE .noneE) (.Literal false "1990")) .nil)

/-- Parse of SELECT gender_source_value FROM person. -/
def select_source_value_tree : Expr :=
  .Select (.cons (.Column (.Identifier "gender_source_value") .noneE .noneE) .nil)
    (.someE (.From (.Table (.Identifier "person")))) .noneE

/-- Parse of SELECT year_of_birth FROM person. -/
def select_excluded_tree : Expr :=
  .Select (.cons (.Column (.Identifier "year_of_birth") .noneE .noneE) .nil)
    (.someE (.From (.Table (.Identifier "person")))) .noneE

/-- The message every NotSelectQueryError carries. -/
def not_select_msg : String := "Only SELECT statements are allowed for security reasons."

/-- The SQL text of the date-subtraction rewrite test. -/
def c6_sql : String := "SELECT (a.condition_start_date - b.index_date) <= 30"

/-- a.condition_start_date. -/
def c6_colA : Expr := .Column (.Identifier "condition_start_date") (.someE (.Identifier "a")) .noneE

/-- b.index_date. -/
def c6_colB : Expr := .Column (.Identifier "index_date") (.someE (.Identifier "b")) .noneE

/-- Parse of SELECT (a.condition_start_date - b.index_date) <= 30 in the
postgres dialect. -/
def c6_input : Expr :=
  .Select (.cons (.LTE (.Paren (.Sub c6_colA c6_colB)) (.Literal false "30")) .nil) .noneE .noneE

/-- The rewritten tree: DATEDIFF(a.condition_start_date, b.index_date) as
the left operand of the preserved <= 30 comparison. -/
def c6_output : Expr :=
  .Select (.cons (.LTE (_create_datediff c6_colA c6_colB) (.Literal false "30")) .nil) .noneE .noneE

/-- Parse of SELECT x + 1. -/
def x_plus_one_tree : Expr :=
  .Select (.cons (.Add (.Column (.Identifier "x") .noneE .noneE) (.Literal false "1")) .nil) .noneE .noneE

/-- SELECT x + 1 after one transform pass: the addition became
DATE_ADD(x, 1) although x is not date-typed. -/
def x_plus_one_rewritten : Expr :=
  .Select (.cons (.Anonymous "DATE_ADD"
    (.cons (.Column (.Identifier "x") .noneE .noneE) (.cons (.Literal false "1") .nil))) .nil) .noneE .noneE

/-- Parse of select 1 (lower case). -/
def select_one_tree : Expr := .Select (.cons (.Literal false "1") .nil) .noneE .noneE

/-- Modelled from the behaviour of the external sqlglot parser on the
input below: parse_one("select 1", read="postgres") yields a Select of the
numeric literal 1.  Other inputs are out of the model. -/
def roundtrip_parse : String → String → Except String Expr := fun _ s =>
  if s = "select 1" then .ok select_one_tree else .error "unmodelled input"

/-- Modelled from the behaviour of the external sqlglot generator on the
tree above: tree.sql(dialect="postgres") prints upper-case keywords, so
the parse of select 1 prints back as SELECT 1, not as the input text. -/
def roundtrip_print : String → Expr → String := fun _ t =>
  if t = select_one_tree then "SELECT 1" else "unmodelled tree"

/-! ## Helper lemmas -/

/-- Every tree occurs in its own node list. -/
@[simp]
theorem self_mem_allNodes (e : Expr) : e ∈ allNodes e := by
  cases e <;> simp [allNodes]

/-- Removing a TIMESTAMP cast yields a node of the original tree. -/
theorem unwrap_timestamp_cast_mem (x : Expr) : _unwrap_timestamp_cast x ∈ allNodes x := by
  unfold _unwrap_timestamp_cast
  split
  · simp [allNodes]
  · simp

/-! ## Claim theorems -/

/-- C3: validating the parseable non-SELECT statement INSERT INTO person
(person_id) VALUES (1) returns a violation list of length exactly one,
whose sole element is a NotSelectQueryError; no table or column
violations are reported for it. -/
theorem c3_insert_yields_single_not_select_error :
    default_validator.validate_sql (.ok insert_person_tree) =
      [.NotSelectQueryError not_select_msg] := rfl

/-- C4: validating SELECT gender_source_value FROM person with the
default policy returns exactly one violation, an UnauthorizedColumnError
about source-value columns; with allow_source_value_columns=True the same
query returns an empty list. -/
theorem c4_source_value_default_deny_and_allow :
    default_validator.validate_sql (.ok select_source_value_tree) =
      [.UnauthorizedColumnError
        ("Source value columns are not allowed: gender_source_value. "
          ++ "Use the corresponding concept_id columns with a join on the concept table instead. "
          ++ "Inform the user that this is a security measure to prevent data leakage.")] ∧
    source_value_validator.validate_sql (.ok select_source_value_tree) = [] :=
  ⟨rfl, rfl⟩

/-- C5: validate_sql returns a list for every parse outcome and never
raises (its catch-all except clause turns every failure into returned
data), and a parse failure yields a list whose only element is the parse
error, with no further checks run. -/
theorem c5_validate_sql_total_and_parse_failure :
    (∀ (v : SQLValidator) (msg : String), v.validate_sql (.error msg) = [.ParseError msg]) ∧
    (∀ (v : SQLValidator) (parsed : Except String Expr),
      ∃ errs : List QueryError, v.validate_sql parsed = errs) :=
  ⟨fun _ _ => rfl, fun _ _ => ⟨_, rfl⟩⟩

/-- C2 counterexample: the claim that the statement-kind check does not
short-circuit is false on the code.  For the parseable non-SELECT
statement UPDATE person SET year_of_birth = 1990 under a policy excluding
person, the unauthorized-table check would fire on the collected tables,
yet the returned list is exactly the NotSelectQueryError: validate_sql
raises the statement-kind error internally, so no structural check result
is reported. -/
theorem c2_structural_checks_skipped_counterexample :
    isSelect update_person_tree = false ∧
    exclusion_validator._check_unauthorized_tables (findTables update_person_tree) =
      some (.UnauthorizedTableError "Unauthorized tables in query: person") ∧
    exclusion_validator.validate_sql (.ok update_person_tree) =
      [.NotSelectQueryError not_select_msg] ∧
    ∀ e ∈ exclusion_validator.validate_sql (.ok update_person_tree),
      e.isUnauthorizedTableError = false := by
  refine ⟨rfl, rfl, rfl, ?_⟩
  intro e he
  simp only [show exclusion_validator.validate_sql (.ok update_person_tree) =
    [.NotSelectQueryError not_select_msg] from rfl, List.mem_singleton] at he
  subst he
  rfl

/-- C2 amended: the statement-kind check does short-circuit: for every
parseable non-SELECT statement the returned list is exactly the
NotSelectQueryError and no structural check is attempted. -/
theorem c2_not_select_short_circuits (v : SQLValidator) (tree : Expr)
    (h : isSelect tree = false) :
    v.validate_sql (.ok tree) = [.NotSelectQueryError not_select_msg] := by
  simp [SQLValidator.validate_sql, SQLValidator._check_is_select_query, h, not_select_msg]

/-- Witness for the amended C2 at the concrete UPDATE statement. -/
theorem c2_short_circuit_witness :
    isSelect update_person_tree = false ∧
    exclusion_validator.validate_sql (.ok update_person_tree) =
      [.NotSelectQueryError not_select_msg] :=
  ⟨rfl, c2_not_select_short_circuits exclusion_validator update_person_tree rfl⟩

/-- C1 counterexample: the claim quantifies over every SQL query, but a
parseable non-SELECT query that references a deny-listed table and a
deny-listed column returns neither an UnauthorizedTableError nor an
UnauthorizedColumnError, because the statement-kind check short-circuits.
UPDATE person SET year_of_birth = 1990 with person and year_of_birth
excluded refutes the claim as stated. -/
theorem c1_update_query_counterexample :
    (∃ t ∈ findTables update_person_tree,
        pyLower (Expr.name t) ∈ exclusion_validator.exclude_tables) ∧
    (∃ c ∈ findColumns update_person_tree,
        pyLower (Expr.name c) ∈ exclusion_validator.exclude_columns) ∧
    ¬ ((∃ e ∈ exclusion_validator.validate_sql (.ok update_person_tree),
          e.isUnauthorizedTableError = true) ∧
       (∃ e ∈ exclusion_validator.validate_sql (.ok update_person_tree),
          e.isUnauthorizedColumnError = true)) := by
  refine ⟨⟨.Table (.Identifier "person"), ?_, ?_⟩,
          ⟨.Column (.Identifier "year_of_birth") .noneE .noneE, ?_, ?_⟩, ?_⟩
  · simp [findTables, update_person_tree, allNodes, allNodesL, allNodesO, isTableNode]
  · simp [exclusion_validator, SQLValidator.make, pyLower, Expr.name, textOfThis]
  · simp [findColumns, update_person_tree, allNodes, allNodesL, allNodesO, isColumnNode]
  · simp [exclusion_validator, SQLValidator.make, pyLower, Expr.name, textOfThis]
  · rintro ⟨⟨e, he, hprop⟩, -⟩
    simp only [show exclusion_validator.validate_sql (.ok update_person_tree) =
      [.NotSelectQueryError not_select_msg] from rfl, List.mem_singleton] at he
    subst he
    simp [QueryError.isUnauthorizedTableError] at hprop

/-- C10: in the postgres to databricks rewrite, every addition node whose
right operand is a numeric literal is rewritten to DATE_ADD(left, right)
with no check that the left operand is date-typed; in particular the
purely numeric SELECT x + 1 is rewritten to DATE_ADD(x, 1). -/
theorem c10_add_numeric_literal_rewritten_unconditionally :
    (∀ (left : Expr) (v : String),
      transformer (.Add left (.Literal false v)) =
        (.Anonymous "DATE_ADD" (.cons left (.cons (.Literal false v) .nil)), true)) ∧
    sqlglot_transform x_plus_one_tree = x_plus_one_rewritten :=
  ⟨fun _ _ => rfl, rfl⟩

/-- If some collected table is on the exclusion list, the
unauthorized-table check fires with an UnauthorizedTableError. -/
theorem check_unauthorized_tables_fires (v : SQLValidator) (tables : List Expr)
    (h : ∃ t ∈ tables, pyLower (Expr.name t) ∈ v.exclude_tables) :
    ∃ m, v._check_unauthorized_tables tables = some (.UnauthorizedTableError m) := by
  obtain ⟨t, htm, hte⟩ := h
  simp only [SQLValidator._check_unauthorized_tables]
  split
  next hempty =>
    exfalso
    rw [List.isEmpty_iff] at hempty
    have := List.filterMap_eq_nil_iff.mp hempty t htm
    simp only [List.elem_iff.mpr hte, if_pos] at this
    exact Option.noConfusion this
  next => exact ⟨_, rfl⟩

/-- If some collected column is on the exclusion list, the
unauthorized-column check fires with an UnauthorizedColumnError. -/
theorem check_unauthorized_columns_fires (v : SQLValidator) (columns : List Expr)
    (h : ∃ c ∈ columns, pyLower (Expr.name c) ∈ v.exclude_columns) :
    ∃ m, v._check_unauthorized_columns columns = some (.UnauthorizedColumnError m) := by
  obtain ⟨c, hcm, hce⟩ := h
  simp only [SQLValidator._check_unauthorized_columns]
  split
  next hempty =>
    exfalso
    rw [List.isEmpty_iff] at hempty
    have := List.filterMap_eq_nil_iff.mp hempty c hcm
    simp only [List.elem_iff.mpr hce, if_pos] at this
    exact Option.noConfusion this
  next => exact ⟨_, rfl⟩

/-- On a Select root, the result of any of the four appended checks is a
member of the returned violation list. -/
theorem mem_validate_sql_of_check (v : SQLValidator) (tree : Expr)
    (hsel : isSelect tree = true) (err : QueryError)
    (h : SQLValidator._check_is_omop_table (findTables tree) = some err ∨
         v._check_unauthorized_tables (findTables tree) = some err ∨
         v._check_unauthorized_columns (findColumns tree) = some err ∨
         v._check_source_value_columns (findColumns tree) = some err) :
    err ∈ v.validate_sql (.ok tree) := by
  simp only [SQLValidator.validate_sql]
  split
  next heq => simp [SQLValidator._check_is_select_query, hsel] at heq
  next =>
    refine List.mem_filterMap.mpr ⟨some err, ?_, rfl⟩
    rcases h with h | h | h | h <;> simp [h]

/-- C1 amended: for every parseable SELECT query that references both a
table on the configured deny-list and a column on the configured
deny-list, a single call to validate_sql returns a list containing both
an UnauthorizedTableError and an UnauthorizedColumnError. -/
theorem c1_select_accumulates_both_violations (v : SQLValidator) (tree : Expr)
    (hsel : isSelect tree = true)
    (ht : ∃ t ∈ findTables tree, pyLower (Expr.name t) ∈ v.exclude_tables)
    (hc : ∃ c ∈ findColumns tree, pyLower (Expr.name c) ∈ v.exclude_columns) :
    (∃ e ∈ v.validate_sql (.ok tree), e.isUnauthorizedTableError = true) ∧
    (∃ e ∈ v.validate_sql (.ok tree), e.isUnauthorizedColumnError = true) := by
  obtain ⟨mt, hmt⟩ := check_unauthorized_tables_fires v (findTables tree) ht
  obtain ⟨mc, hmc⟩ := check_unauthorized_columns_fires v (findColumns tree) hc
  exact ⟨⟨.UnauthorizedTableError mt,
      mem_validate_sql_of_check v tree hsel _ (Or.inr (Or.inl hmt)), rfl⟩,
    ⟨.UnauthorizedColumnError mc,
      mem_validate_sql_of_check v tree hsel _ (Or.inr (Or.inr (Or.inl hmc))), rfl⟩⟩

/-- Witness for the amended C1 at SELECT year_of_birth FROM person under
the policy excluding table person and column year_of_birth. -/
theorem c1_accumulation_witness :
    isSelect select_excluded_tree = true ∧
    (∃ t ∈ findTables select_excluded_tree,
      pyLower (Expr.name t) ∈ exclusion_validator.exclude_tables) ∧
    (∃ c ∈ findColumns select_excluded_tree,
      pyLower (Expr.name c) ∈ exclusion_validator.exclude_columns) ∧
    (∃ e ∈ exclusion_validator.validate_sql (.ok select_excluded_tree),
      e.isUnauthorizedTableError = true) ∧
    (∃ e ∈ exclusion_validator.validate_sql (.ok select_excluded_tree),
      e.isUnauthorizedColumnError = true) := by
  have h := c1_select_accumulates_both_violations exclusion_validator select_excluded_tree
    rfl (by decide) (by decide)
  exact ⟨rfl, by decide, by decide, h.1, h.2⟩

/-- A pass whose input is already a fixed point of the pass function
returns it unchanged on any positive fuel. -/
theorem transformLoop_fixed (step : Expr → Expr) (sqlOf : Expr → String) (t : Expr)
    (m : Nat) (h : step t = t) : transformLoop step sqlOf (m + 1) t = t := by
  simp [transformLoop, h]

/-- When the second application of the pass function changes nothing, the
loop returns the once-transformed tree whatever the serializer says. -/
theorem transformLoop_of_double (step : Expr → Expr) (sqlOf : Expr → String) (t : Expr)
    (n : Nat) (h2 : step (step t) = step t) :
    transformLoop step sqlOf (n + 1) t = step t := by
  cases n with
  | zero =>
    rw [show transformLoop step sqlOf (0 + 1) t =
      if sqlOf t = sqlOf (step t) then step t else transformLoop step sqlOf 0 (step t) from rfl]
    split
    · rfl
    · rfl
  | succ m =>
    rw [show transformLoop step sqlOf (m + 1 + 1) t =
      if sqlOf t = sqlOf (step t) then step t else transformLoop step sqlOf (m + 1) (step t) from rfl]
    split
    · rfl
    · exact transformLoop_fixed step sqlOf (step t) m h2

/-- C6: transpiling SELECT (a.condition_start_date - b.index_date) <= 30
from postgres to databricks produces a tree whose left comparison operand
is DATEDIFF(a.condition_start_date, b.index_date) with the <= 30
comparison preserved, for every external serializer, parser and printer
consistent with the parse of this query. -/
theorem c6_datediff_rewrite_preserves_comparison
    (sqlOf : Expr → String) (parse : String → String → Except String Expr)
    (printT : String → Expr → String)
    (hparse : parse "postgres" c6_sql = .ok c6_input) :
    _transform_date_operations sqlOf c6_input = c6_output ∧
    transpile_query parse printT sqlOf c6_sql "postgres" "databricks" =
      .ok (printT "databricks" c6_output) := by
  have hstep : sqlglot_transform c6_input = c6_output := rfl
  have hfix : sqlglot_transform c6_output = c6_output := rfl
  have h2 : sqlglot_transform (sqlglot_transform c6_input) = sqlglot_transform c6_input := by
    rw [hstep, hfix]
  have hmain : _transform_date_operations sqlOf c6_input = c6_output := by
    unfold _transform_date_operations
    rw [transformLoop_of_double sqlglot_transform sqlOf c6_input 9 h2, hstep]
  refine ⟨hmain, ?_⟩
  simp [transpile_query, hparse, hmain]

/-- Witness for C6 at a concrete parser, printer and serializer. -/
theorem c6_datediff_witness :
    ((fun _ _ => Except.ok c6_input) : String → String → Except String Expr)
        "postgres" c6_sql = .ok c6_input ∧
    _transform_date_operations (fun _ => "") c6_input = c6_output ∧
    transpile_query (fun _ _ => Except.ok c6_input) (fun _ _ => "printed") (fun _ => "")
      c6_sql "postgres" "databricks" = .ok "printed" := by
  have h := c6_datediff_rewrite_preserves_comparison (fun _ => "")
    (fun _ _ => Except.ok c6_input) (fun _ _ => "printed") rfl
  exact ⟨rfl, h.1, h.2⟩

/-- Full characterization of the rewrite pass loop on positive fuel: some
number k of passes runs, bounded by the fuel; the result is the k-fold
pass iterate; every pass before the last changed the serialized SQL; and
when the loop stopped before exhausting the fuel, the last pass was a
textual fixed point. -/
theorem transformLoop_spec (step : Expr → Expr) (sqlOf : Expr → String) :
    ∀ (n : Nat) (t : Expr), ∃ k, 1 ≤ k ∧ k ≤ n + 1 ∧
      transformLoop step sqlOf (n + 1) t = step^[k] t ∧
      (∀ j, j + 1 < k → sqlOf (step^[j + 1] t) ≠ sqlOf (step^[j] t)) ∧
      (k < n + 1 → sqlOf (step^[k] t) = sqlOf (step^[k - 1] t)) := by
  intro n
  induction n with
  | zero =>
    intro t
    refine ⟨1, le_refl 1, le_refl 1, ?_, fun j hj => absurd hj (by omega),
      fun hlt => absurd hlt (by omega)⟩
    rw [show transformLoop step sqlOf (0 + 1) t =
      if sqlOf t = sqlOf (step t) then step t else transformLoop step sqlOf 0 (step t) from rfl]
    split
    · rw [Function.iterate_one]
    · rw [Function.iterate_one]; rfl
  | succ m ih =>
    intro t
    by_cases hc : sqlOf t = sqlOf (step t)
    · refine ⟨1, le_refl 1, by omega, ?_, fun j hj => absurd hj (by omega), fun _ => ?_⟩
      · rw [show transformLoop step sqlOf (m + 1 + 1) t =
          if sqlOf t = sqlOf (step t) then step t
          else transformLoop step sqlOf (m + 1) (step t) from rfl]
        rw [if_pos hc, Function.iterate_one]
      · simpa using hc.symm
    · obtain ⟨k, hk1, hk2, hk3, hk4, hk5⟩ := ih (step t)
      refine ⟨k + 1, by omega, by omega, ?_, ?_, ?_⟩
      · rw [show transformLoop step sqlOf (m + 1 + 1) t =
          if sqlOf t = sqlOf (step t) then step t
          else transformLoop step sqlOf (m + 1) (step t) from rfl]
        rw [if_neg hc, hk3, ← Function.iterate_succ_apply]
      · intro j hj
        cases j with
        | zero => simpa using fun hgoal => hc hgoal.symm
        | succ i =>
          have hi := hk4 i (by omega)
          rw [Function.iterate_succ_apply step (i + 1) t, Function.iterate_succ_apply step i t]
          exact hi
      · intro hlt
        have hk5' := hk5 (by omega)
        have e1 : step^[k + 1] t = step^[k] (step t) := Function.iterate_succ_apply step k t
        have e2 : step^[k] t = step^[k - 1] (step t) := by
          conv_lhs => rw [show k = (k - 1) + 1 by omega]
          exact Function.iterate_succ_apply step (k - 1) t
        simp only [Nat.add_sub_cancel]
        rw [e1, e2]
        exact hk5'

/-- C7: for every input tree and every behaviour of the external
serializer, the rewrite pass loop of _transform_date_operations runs at
most 10 passes, stops at the first pass whose serialized output equals
the serialized input of that pass, and returns the tree produced by the
passes run so far. -/
theorem c7_loop_at_most_ten_stops_at_first_textual_fixed_point
    (sqlOf : Expr → String) (tree : Expr) :
    ∃ k, 1 ≤ k ∧ k ≤ 10 ∧
      _transform_date_operations sqlOf tree = sqlglot_transform^[k] tree ∧
      (∀ j, j + 1 < k →
        sqlOf (sqlglot_transform^[j + 1] tree) ≠ sqlOf (sqlglot_transform^[j] tree)) ∧
      (k < 10 → sqlOf (sqlglot_transform^[k] tree) = sqlOf (sqlglot_transform^[k - 1] tree)) := by
  have h := transformLoop_spec sqlglot_transform sqlOf 9 tree
  simpa [_transform_date_operations] using h

/-- Witness for C7 at a concrete serializer and tree. -/
theorem c7_loop_witness :
    ∃ k, 1 ≤ k ∧ k ≤ 10 ∧
      _transform_date_operations (fun _ => "") x_plus_one_tree =
        sqlglot_transform^[k] x_plus_one_tree ∧
      (∀ j, j + 1 < k →
        (fun _ => "") (sqlglot_transform^[j + 1] x_plus_one_tree) ≠
          (fun _ => "") (sqlglot_transform^[j] x_plus_one_tree)) ∧
      (k < 10 → (fun _ => "") (sqlglot_transform^[k] x_plus_one_tree) =
        (fun _ => "") (sqlglot_transform^[k - 1] x_plus_one_tree)) :=
  c7_loop_at_most_ten_stops_at_first_textual_fixed_point (fun _ => "") x_plus_one_tree

/-- C8 amended: transpile_query with source and target both postgres
applies no custom rewrite rule: the parsed tree is handed unchanged to
the external dialect printer, so the output is the postgres rendering of
the parse, which coincides with the input string only when the external
printer round-trips it. -/
theorem c8_no_custom_rewrite_for_postgres_postgres
    (parse : String → String → Except String Expr) (printT : String → Expr → String)
    (sqlOf : Expr → String) (s : String) (tree : Expr)
    (h : parse "postgres" s = .ok tree) :
    transpile_query parse printT sqlOf s "postgres" "postgres" = .ok (printT "postgres" tree) := by
  simp [transpile_query, h]

/-- C8 counterexample: the returned SQL is not textually identical to the
input.  On the parseable input select 1 the external printer renders the
unchanged tree with normalized keyword case, so the output is SELECT 1,
not the input string. -/
theorem c8_textual_identity_counterexample :
    roundtrip_parse "postgres" "select 1" = .ok select_one_tree ∧
    transpile_query roundtrip_parse roundtrip_print (fun _ => "") "select 1"
      "postgres" "postgres" = .ok "SELECT 1" ∧
    transpile_query roundtrip_parse roundtrip_print (fun _ => "") "select 1"
      "postgres" "postgres" ≠ .ok "select 1" := by
  refine ⟨rfl, rfl, ?_⟩
  intro hc
  rw [show transpile_query roundtrip_parse roundtrip_print (fun _ => "") "select 1"
    "postgres" "postgres" = .ok "SELECT 1" from rfl] at hc
  simp at hc

/-- Witness for the amended C8 at the modelled parser and printer. -/
theorem c8_no_rewrite_witness :
    roundtrip_parse "postgres" "select 1" = .ok select_one_tree ∧
    transpile_query roundtrip_parse roundtrip_print (fun _ => "") "select 1"
      "postgres" "postgres" = .ok (roundtrip_print "postgres" select_one_tree) :=
  ⟨rfl, c8_no_custom_rewrite_for_postgres_postgres roundtrip_parse roundtrip_print
    (fun _ => "") "select 1" select_one_tree rfl⟩

/-- C9: each expression matcher is a total function (it is a plain Lean
function, as its Python original never raises thanks to its isinstance
and try guards) that returns either the no-match sentinel or
sub-expressions of the inspected node, never partial or garbage output. -/
theorem c9_matchers_return_subexpressions_or_sentinel (node : Expr) :
    (∀ e, _is_epoch_days_pattern node = some e → e ∈ allNodes node) ∧
    (∀ s e b, _is_daterange_call node = some (s, e, b) →
      s ∈ allNodes node ∧ e ∈ allNodes node) ∧
    (∀ l r, _is_range_intersection_operator node = some (l, r) →
      l ∈ allNodes node ∧ r ∈ allNodes node) ∧
    (∀ l r, _is_range_overlap_operator node = some (l, r) →
      l ∈ allNodes node ∧ r ∈ allNodes node) ∧
    (∀ s, _is_abs_with_subtraction node = some s → s ∈ allNodes node) ∧
    (∀ a b, _extract_date_operands_from_sub node = (some a, some b) →
      a ∈ allNodes node ∧ b ∈ allNodes node) := by
  refine ⟨?_, ?_, ?_, ?_, ?_, ?_⟩
  · intro e h
    unfold _is_epoch_days_pattern at h
    repeat' split at h
    all_goals simp_all [allNodes, allNodesL, allNodesO]
  · intro s e b h
    unfold _is_daterange_call at h
    repeat' split at h
    all_goals simp_all [allNodes, allNodesL, allNodesO]
  · intro l r h
    unfold _is_range_intersection_operator at h
    repeat' split at h
    all_goals simp_all [allNodes, allNodesL, allNodesO]
  · intro l r h
    unfold _is_range_overlap_operator at h
    repeat' split at h
    all_goals simp_all [allNodes, allNodesL, allNodesO]
  · intro s h
    unfold _is_abs_with_subtraction at h
    repeat' split at h
    all_goals simp_all [allNodes, allNodesL, allNodesO]
  · intro a b h
    unfold _extract_date_operands_from_sub at h
    split at h
    · rename_i l r
      cases hy : (_is_year_extract (_unwrap_timestamp_cast l)
          || _is_year_extract (_unwrap_timestamp_cast r)) with
      | true => simp [hy] at h
      | false =>
        simp only [hy, Bool.false_eq_true, if_false, Prod.mk.injEq, Option.some.injEq] at h
        obtain ⟨h1, h2⟩ := h
        subst h1
        subst h2
        refine ⟨?_, ?_⟩
        · simp only [allNodes, List.mem_cons, List.mem_append]
          exact Or.inr (Or.inl (unwrap_timestamp_cast_mem _))
        · simp only [allNodes, List.mem_cons, List.mem_append]
          exact Or.inr (Or.inr (unwrap_timestamp_cast_mem _))
    · simp at h

/-- Witness for C9 at a concrete node: ABS(a - b) inside the matcher
family, all conjuncts instantiated. -/
theorem c9_matchers_witness :
    (∀ e, _is_epoch_days_pattern (.Abs (.Sub .Placeholder .Placeholder)) = some e →
      e ∈ allNodes (.Abs (.Sub .Placeholder .Placeholder))) ∧
    (∀ s e b, _is_daterange_call (.Abs (.Sub .Placeholder .Placeholder)) = some (s, e, b) →
      s ∈ allNodes (.Abs (.Sub .Placeholder .Placeholder)) ∧
        e ∈ allNodes (.Abs (.Sub .Placeholder .Placeholder))) ∧
    (∀ l r, _is_range_intersection_operator (.Abs (.Sub .Placeholder .Placeholder)) =
        some (l, r) →
      l ∈ allNodes (.Abs (.Sub .Placeholder .Placeholder)) ∧
        r ∈ allNodes (.Abs (.Sub .Placeholder .Placeholder))) ∧
    (∀ l r, _is_range_overlap_operator (.Abs (.Sub .Placeholder .Placeholder)) = some (l, r) →
      l ∈ allNodes (.Abs (.Sub .Placeholder .Placeholder)) ∧
        r ∈ allNodes (.Abs (.Sub .Placeholder .Placeholder))) ∧
    (∀ s, _is_abs_with_subtraction (.Abs (.Sub .Placeholder .Placeholder)) = some s →
      s ∈ allNodes (.Abs (.Sub .Placeholder .Placeholder))) ∧
    (∀ a b, _extract_date_operands_from_sub (.Abs (.Sub .Placeholder .Placeholder)) =
        (some a, some b) →
      a ∈ allNodes (.Abs (.Sub .Placeholder .Placeholder)) ∧
        b ∈ allNodes (.Abs (.Sub .Placeholder .Placeholder))) :=
  c9_matchers_return_subexpressions_or_sentinel (.Abs (.Sub .Placeholder .Placeholder))
